import Mathlib

/-!
Verification of the FundingRate backend (src/backend/app.py) against its
natural-language specification.

Modelling conventions (shallow embedding):
* Python `float` values are modelled by `PyFloat`: a finite rational, NaN,
  +Infinity or -Infinity.  Arithmetic performed after the finiteness filters
  only ever sees finite values and is modelled exactly over `ℚ` (the float
  overflow that could make the later `math.isfinite` guards fire cannot be
  exhibited in exact arithmetic, so those guards are provably dead here and
  the corresponding branches are noted in comments where they occur).
* Timestamps are seconds since the epoch as `Nat` (`datetime.utcnow()` is a
  point in time; subtraction of an earlier from a later time is Nat
  subtraction, and a "future" lock timestamp yields age 0, matching the
  Python comparison `age > timedelta(minutes=30)` being false for negative
  ages).
* Python strings are sequences of code points, `List Nat`; `str.upper` /
  `str.lower` are modelled on the ASCII range, which covers the exchange
  symbol strings the service handles.
* The file-system lock for one job is the state `Option Nat`: `none` means
  no lock file, `some t` means a lock file whose embedded `started=` field
  parses to time `t`.
* Each collection run is a pure function from (lock state, current time,
  fetch outcome, database contents) to the new lock state, the new database
  contents and the ordered list of status records written during the run.
  The HTTP fetch is the run's only external input and is passed in as an
  `Except` value (`.error` models a raised request/JSON exception).
-/

/-- A Python float: finite rational, NaN, or a signed infinity. -/
inductive PyFloat where
  | finite (q : ℚ)
  | nan
  | inf
  | ninf
deriving DecidableEq

/-- Model of `math.isfinite` on a Python float. -/
def PyFloat.isFinite : PyFloat → Bool
  | PyFloat.finite _ => true
  | _ => false

/-- Outcome of `float(x)` on a raw JSON field: either the coercion succeeds
and yields a Python float (possibly NaN/Infinity, e.g. `float("NaN")`), or it
raises `TypeError`/`ValueError`. -/
inductive RawRate where
  | coercible (v : PyFloat)
  | invalid
deriving DecidableEq

/-- One item of the Venue-A (`lighter`) funding-rates response:
`item.get('symbol')` (may be absent, i.e. `None`) and the rate field, which
`fetch_and_store_data` passes to `float`.  (`item.get('rate', '0')` defaults
to `'0'`, so the rate field itself is always present; its coercion outcome is
what matters.) -/
structure RawItem where
  symbol : Option (List Nat)
  rate : RawRate
deriving DecidableEq

/-- One row of the `funding_rate` table (`models.FundingRate`).  The `rate`
column is typed `Float` and non-null, but the aggregation code defensively
re-checks `rate is None` and finiteness on read, so the model keeps the rate
as `Option PyFloat` to give those injected-corruption checks something to
act on. -/
structure StoredRow where
  exchange : String
  symbol : Option (List Nat)
  rate : Option PyFloat
  timestamp : Nat
deriving DecidableEq

/-- One status record written by `_write_status` (timestamp fields omitted:
only the job, the state and the reported `stored` count are observable
through the claims). -/
inductive StatusWrite where
  | running (job : String)
  | completed (job : String) (stored : Nat)
  | failed (job : String)
deriving DecidableEq

/-- Result of one collection run: final lock state, final database contents,
and the status records written, in order. -/
structure RunResult where
  lock : Option Nat
  db : List StoredRow
  writes : List StatusWrite
deriving DecidableEq

/-- Staleness threshold of `_acquire_lock`: `timedelta(minutes=30)`,
in seconds. -/
def staleThreshold : Nat := 30 * 60

/-- Model of `_acquire_lock(job)` for one job, sequential semantics.
`none`: the `os.open(..., O_CREAT | O_EXCL)` create succeeds, the marker is
written with the current time, return `True`.
`some t`: the create raises `FileExistsError`; the embedded timestamp `t` is
read back, and if its age strictly exceeds 30 minutes the marker is removed
and acquisition retried once — the retry then finds no marker and succeeds
(the retry is inlined here, which is exactly the sequential behaviour of the
recursive call in the source).  Otherwise return `False`. -/
def acquire_lock (now : Nat) (lock : Option Nat) : Bool × Option Nat :=
  match lock with
  | none => (true, some now)
  | some t =>
      if staleThreshold < now - t then
        (true, some now)
      else
        (false, some t)

/-- Model of `_release_lock(job)`: remove the marker if present. -/
def release_lock (_lock : Option Nat) : Option Nat := none

/-- The per-item body of the `for item in items` loop of
`fetch_and_store_data` (app.py lines 148-166): coerce the rate with
`float`; skip the item when the coercion raises; skip it when the result is
not finite; otherwise build a `FundingRate(exchange='lighter', ...)` row.
`db.session.add` timestamps the row with the column default
`datetime.utcnow`, modelled as the run's current time. -/
def ingest_lighter_item (now : Nat) (item : RawItem) : Option StoredRow :=
  match item.rate with
  | RawRate.invalid => none
  | RawRate.coercible v =>
      if v.isFinite then
        some { exchange := "lighter", symbol := item.symbol
               rate := some v, timestamp := now }
      else
        none

/-- All rows the lighter ingestion loop adds to the session, in item
order. -/
def ingest_lighter_items (now : Nat) (items : List RawItem) : List StoredRow :=
  items.filterMap (ingest_lighter_item now)

/-- Model of `fetch_and_store_data` (app.py lines 126-185): acquire the `lighter`
lock (skip the run without writing anything when that fails), write the
`running` status, perform the fetch, store every valid item, and write the
terminal status.  The `completed` status reports `len(items)` — the raw
item count — as its `stored` field (source line 173).  The `finally:` block
always releases the lock. -/
def fetch_and_store_data (lock : Option Nat) (now : Nat)
    (fetch : Except String (List RawItem)) (db : List StoredRow) : RunResult :=
  let acq := acquire_lock now lock
  if acq.1 then
    match fetch with
    | Except.error _ =>
        { lock := release_lock acq.2, db := db
          writes := [StatusWrite.running "lighter", StatusWrite.failed "lighter"] }
    | Except.ok items =>
        { lock := release_lock acq.2
          db := db ++ ingest_lighter_items now items
          writes := [StatusWrite.running "lighter",
                     StatusWrite.completed "lighter" items.length] }
  else
    { lock := acq.2, db := db, writes := [] }

/-- One item of the Hyperliquid payload's `top_long`/`top_short` lists:
`item.get("symbol")` and `item.get("average_3day_rate")`, each possibly
absent (`None`), the latter then passed to `float`. -/
structure HLItem where
  symbol : Option (List Nat)
  rateVal : Option RawRate
deriving DecidableEq

/-- The Hyperliquid payload returned by
`hyena_client.fetch_all_funding_rates()` when it is a dict; a non-dict
payload contributes no items at all and is modelled by both lists empty. -/
structure HLPayload where
  top_long : List HLItem
  top_short : List HLItem
deriving DecidableEq

/-- Model of `symbol_rates[symbol] = rate` on a Python dict: overwrite in place when
the key exists (keeping its insertion position), append otherwise. -/
def upsert_rate (m : List (List Nat × ℚ)) (k : List Nat) (v : ℚ) :
    List (List Nat × ℚ) :=
  if m.any (fun p => p.1 = k) then
    m.map (fun p => if p.1 = k then (k, v) else p)
  else
    m ++ [(k, v)]

/-- The per-item body of the `symbol_rates` loop of
`fetch_and_store_hyperliquid_data` (app.py lines 209-227): skip when symbol
or rate value is `None`, when `float` raises, or when the coerced value is
not finite; otherwise record the (finite) rate under the symbol. -/
def hl_symbol_rates_step (m : List (List Nat × ℚ)) (item : HLItem) :
    List (List Nat × ℚ) :=
  match item.symbol, item.rateVal with
  | some s, some (RawRate.coercible (PyFloat.finite q)) => upsert_rate m s q
  | _, _ => m

/-- The `symbol_rates` dict built from the concatenated `top_long` and
`top_short` items. -/
def hl_symbol_rates (items : List HLItem) : List (List Nat × ℚ) :=
  items.foldl hl_symbol_rates_step []

/-- Model of `fetch_and_store_hyperliquid_data` (app.py lines 188-255): acquire the
`hyperliquid` lock, write `running`, fetch the payload, build
`symbol_rates`, and store one row per symbol.  When `symbol_rates` is empty
the function logs a warning and returns early (line 231) — the `finally:`
releases the lock but NO terminal status is written.  On success the
`completed` status reports `len(symbol_rates)`. -/
def fetch_and_store_hyperliquid_data (lock : Option Nat) (now : Nat)
    (fetch : Except String HLPayload) (db : List StoredRow) : RunResult :=
  let acq := acquire_lock now lock
  if acq.1 then
    match fetch with
    | Except.error _ =>
        { lock := release_lock acq.2, db := db
          writes := [StatusWrite.running "hyperliquid",
                     StatusWrite.failed "hyperliquid"] }
    | Except.ok payload =>
        let items := payload.top_long ++ payload.top_short
        let rates := hl_symbol_rates items
        if rates.isEmpty then
          { lock := release_lock acq.2, db := db
            writes := [StatusWrite.running "hyperliquid"] }
        else
          { lock := release_lock acq.2
            db := db ++ rates.map (fun p =>
              { exchange := "hyperliquid", symbol := some p.1
                rate := some (PyFloat.finite p.2), timestamp := now })
            writes := [StatusWrite.running "hyperliquid",
                       StatusWrite.completed "hyperliquid" rates.length] }
  else
    { lock := acq.2, db := db, writes := [] }

/-- Code points of a Lean string literal, used to write the concrete Python
strings of the scenarios. -/
def codePoints (s : String) : List Nat := s.data.map Char.toNat

/-- ASCII uppercase of one code point (`str.upper`, ASCII range). -/
def upperChar (c : Nat) : Nat := if 97 ≤ c ∧ c ≤ 122 then c - 32 else c

/-- ASCII lowercase of one code point (`str.lower`, ASCII range). -/
def lowerChar (c : Nat) : Nat := if 65 ≤ c ∧ c ≤ 90 then c + 32 else c

/-- Model of `s.upper()` on a symbol string. -/
def pyUpper (s : List Nat) : List Nat := s.map upperChar

/-- Model of `s.lower()` on a symbol string. -/
def pyLower (s : List Nat) : List Nat := s.map lowerChar

/-- The trailing-window length of the aggregation endpoints:
`timedelta(hours=72)`, in seconds. -/
def windowSeconds : Nat := 72 * 3600

/-- The filter of the aggregation endpoints' query:
`exchange == e AND timestamp >= now - 72 hours`. -/
def recent_for (e : String) (now : Nat) (r : StoredRow) : Bool :=
  r.exchange == e && decide (now - windowSeconds ≤ r.timestamp)

/-- Append a rate to a symbol's bucket in the `symbol_rates` grouping dict,
creating the bucket at the end on first appearance (Python dict insertion
order). -/
def append_rate (m : List (Option (List Nat) × List ℚ))
    (k : Option (List Nat)) (q : ℚ) : List (Option (List Nat) × List ℚ) :=
  if m.any (fun p => p.1 = k) then
    m.map (fun p => if p.1 = k then (p.1, p.2 ++ [q]) else p)
  else
    m ++ [(k, [q])]

/-- The grouping loop of the aggregation endpoints (app.py lines 301-311):
skip records whose rate is `None` or not finite, group the finite rates by
symbol. -/
def group_by_symbol (recent : List StoredRow) :
    List (Option (List Nat) × List ℚ) :=
  recent.foldl (fun m r =>
    match r.rate with
    | some (PyFloat.finite q) => append_rate m r.symbol q
    | _ => m) []

/-- One entry of the `averages` list (app.py lines 334-338). -/
structure AvgEntry where
  symbol : Option (List Nat)
  average_3day_rate : ℚ
  apr : ℚ
deriving DecidableEq

/-- The `averages` loop (app.py lines 313-338): skip symbols with no valid
rates, compute the arithmetic mean and the APR `avg_rate * 24 * 365`.  The
two `math.isfinite` guards on `avg_rate` and `apr` (lines 323 and 330)
cannot fire in exact rational arithmetic — the mean and products of finite
rationals are finite — so those `continue` branches are dead in this model
and are not represented. -/
def compute_averages (grouped : List (Option (List Nat) × List ℚ)) :
    List AvgEntry :=
  grouped.filterMap (fun p =>
    if p.2.isEmpty then
      none
    else
      let avg_rate := p.2.sum / (p.2.length : ℚ)
      some { symbol := p.1, average_3day_rate := avg_rate
             apr := avg_rate * 24 * 365 })

/-- The comparison `sorted` uses with `key=lambda x: x['average_3day_rate']`. -/
def avg_le (a b : AvgEntry) : Bool :=
  decide (a.average_3day_rate ≤ b.average_3day_rate)

/-- The comparison `sorted(..., reverse=True)` effectively uses. -/
def avg_ge (a b : AvgEntry) : Bool :=
  decide (b.average_3day_rate ≤ a.average_3day_rate)

/-- Model of `sorted(averages, key=lambda x: x['average_3day_rate'])` — a stable
merge sort, like CPython's. -/
def sort_averages_asc (averages : List AvgEntry) : List AvgEntry :=
  averages.mergeSort avg_le

/-- Model of `sorted(averages, key=..., reverse=True)`. -/
def sort_averages_desc (averages : List AvgEntry) : List AvgEntry :=
  averages.mergeSort avg_ge

/-- Model of `(now + timedelta(hours=1)).replace(minute=0, second=0, microsecond=0)`:
the start of the hour that begins within the next hour after `now`. -/
def next_funding_time (now : Nat) : Nat := ((now + 3600) / 3600) * 3600

/-- A JSON field that can be missing from the object, explicitly `null`, or
present with a value — the empty-window response of the aggregation
endpoints omits `next_funding_time`, the error response sets it to `null`,
and the normal response carries a timestamp. -/
inductive JsonField (α : Type) where
  | absent
  | null
  | val (a : α)
deriving DecidableEq

/-- The JSON object returned by an aggregation endpoint. -/
structure RatesResponse where
  top_long : List AvgEntry
  top_short : List AvgEntry
  timestamp : Nat
  next_funding : JsonField Nat
deriving DecidableEq

/-- Model of `get_funding_rates` (app.py lines 277-364), the `/api/funding_rates`
endpoint: query the last 72 hours of `lighter` rows; when the result is
empty return `{top_long: [], top_short: [], timestamp}` — with NO
`next_funding_time` key (lines 294-298); otherwise group, average, sort
both ways and return the full response.  The `except` branch (line 357)
catches exceptions of the query/serialisation machinery, which the pure
model cannot raise, so it is unreachable here. -/
def get_funding_rates (db : List StoredRow) (now : Nat) : RatesResponse :=
  let recent := db.filter (recent_for "lighter" now)
  if recent.isEmpty then
    { top_long := [], top_short := [], timestamp := now
      next_funding := JsonField.absent }
  else
    let averages := compute_averages (group_by_symbol recent)
    { top_long := sort_averages_asc averages
      top_short := sort_averages_desc averages
      timestamp := now
      next_funding := JsonField.val (next_funding_time now) }

/-- Model of `get_hyperliquid_funding_rates` (app.py lines 367-441), the
`/api/hyperliquid/funding_rates` endpoint: identical pipeline over the
`hyperliquid` exchange rows. -/
def get_hyperliquid_funding_rates (db : List StoredRow) (now : Nat) :
    RatesResponse :=
  let recent := db.filter (recent_for "hyperliquid" now)
  if recent.isEmpty then
    { top_long := [], top_short := [], timestamp := now
      next_funding := JsonField.absent }
  else
    let averages := compute_averages (group_by_symbol recent)
    { top_long := sort_averages_asc averages
      top_short := sort_averages_desc averages
      timestamp := now
      next_funding := JsonField.val (next_funding_time now) }

/-- Model of `get_hyena_funding_rates` (app.py lines 444-519), the
`/api/hyena/funding_rates` endpoint: reads the same `hyperliquid` rows over
the same 72-hour window and runs the same filtering, averaging,
annualisation and sorting as the hyperliquid endpoint. -/
def get_hyena_funding_rates (db : List StoredRow) (now : Nat) :
    RatesResponse :=
  let recent := db.filter (recent_for "hyperliquid" now)
  if recent.isEmpty then
    { top_long := [], top_short := [], timestamp := now
      next_funding := JsonField.absent }
  else
    let averages := compute_averages (group_by_symbol recent)
    { top_long := sort_averages_asc averages
      top_short := sort_averages_desc averages
      timestamp := now
      next_funding := JsonField.val (next_funding_time now) }

/-- One element of a history response, `FundingRate.to_dict()`. -/
structure HistEntry where
  symbol : Option (List Nat)
  rate : Option PyFloat
  timestamp : Nat
deriving DecidableEq

/-- Conversion of a `StoredRow` to its `to_dict()` output. -/
def StoredRow.to_dict (r : StoredRow) : HistEntry :=
  { symbol := r.symbol, rate := r.rate, timestamp := r.timestamp }

/-- The history window: `timedelta(days=7)`, in seconds. -/
def historyWindowSeconds : Nat := 7 * 24 * 3600

/-- The filter of a history query: exchange, uppercased symbol, and the
7-day window. -/
def history_match (e : String) (now : Nat) (s : List Nat) (r : StoredRow) :
    Bool :=
  r.exchange == e && decide (r.symbol = some s)
    && decide (now - historyWindowSeconds ≤ r.timestamp)

/-- Model of `get_symbol_history` (app.py lines 521-545), the
`/api/funding_rates/<symbol>` endpoint: uppercase the path parameter, query
the matching `lighter` rows of the last 7 days ordered by timestamp
ascending, and return their `to_dict()` serialisations.  An unknown symbol
simply yields an empty list. -/
def get_symbol_history (db : List StoredRow) (now : Nat) (symbol : List Nat) :
    List HistEntry :=
  let s := pyUpper symbol
  ((db.filter (history_match "lighter" now s)).mergeSort
      (fun a b => a.timestamp ≤ b.timestamp)).map StoredRow.to_dict

/-- Model of `get_hyperliquid_symbol_history` (app.py lines 548-570), the
`/api/hyperliquid/funding_rates/<symbol>` endpoint: same query over the
`hyperliquid` rows. -/
def get_hyperliquid_symbol_history (db : List StoredRow) (now : Nat)
    (symbol : List Nat) : List HistEntry :=
  let s := pyUpper symbol
  ((db.filter (history_match "hyperliquid" now s)).mergeSort
      (fun a b => a.timestamp ≤ b.timestamp)).map StoredRow.to_dict

/-- Whether a stored row's rate column holds a finite float. -/
def row_rate_finite (r : StoredRow) : Bool :=
  match r.rate with
  | some v => v.isFinite
  | none => false

/-- The ingestion scenario batch of the spec:
`[{symbol:"BTC-USDC", rate:"0.0001"}, {symbol:"ETH-USDC", rate:"-0.0002"},
{symbol:"BAD", rate:"NaN"}]`.  `float("0.0001") = 1/10000`,
`float("-0.0002") = -1/5000`, `float("NaN")` succeeds and yields NaN. -/
def scenario_batch : List RawItem :=
  [ { symbol := some (codePoints "BTC-USDC")
      rate := RawRate.coercible (PyFloat.finite (1/10000)) },
    { symbol := some (codePoints "ETH-USDC")
      rate := RawRate.coercible (PyFloat.finite (-1/5000)) },
    { symbol := some (codePoints "BAD")
      rate := RawRate.coercible PyFloat.nan } ]

/-- A Hyperliquid payload whose only item has a NaN rate, so that the run
ends up with zero valid items. -/
def nan_only_payload : HLPayload :=
  { top_long := [ { symbol := some (codePoints "BTC")
                    rateVal := some (RawRate.coercible PyFloat.nan) } ]
    top_short := [] }

/-- A database state with observations only for the `hyperliquid` exchange,
i.e. zero `lighter` observations in any window. -/
def hyperliquid_only_db : List StoredRow :=
  [ { exchange := "hyperliquid", symbol := some (codePoints "BTC")
      rate := some (PyFloat.finite (1/10000)), timestamp := 999999 } ]

/-- A database state with a single fresh finite `lighter` observation. -/
def one_lighter_row_db : List StoredRow :=
  [ { exchange := "lighter", symbol := some (codePoints "BTC-USDC")
      rate := some (PyFloat.finite (1/10000)), timestamp := 500000 } ]

/-- The single `averages` entry the aggregation computes from
`one_lighter_row_db`. -/
def one_lighter_row_avg : AvgEntry :=
  { symbol := some (codePoints "BTC-USDC")
    average_3day_rate := 1/10000
    apr := 1/10000 * 24 * 365 }

/-- A database state with a single fresh `lighter` row for symbol
`ETH-USDC`. -/
def eth_row_db : List StoredRow :=
  [ { exchange := "lighter", symbol := some (codePoints "ETH-USDC")
      rate := some (PyFloat.finite 1), timestamp := 100 } ]

/-! ## Theorems -/

/-- Claim C2: lock acquisition is mutually exclusive per job name — when the
first lock is younger than the 30-minute staleness threshold, a first
`acquire` returns true, a second `acquire` without an intervening `release`
returns false, and after a `release` a third `acquire` returns true
again. -/
theorem lock_mutual_exclusion (t1 t2 t3 : Nat)
    (h : t2 - t1 ≤ staleThreshold) :
    (acquire_lock t1 none).1 = true ∧
    (acquire_lock t2 (acquire_lock t1 none).2).1 = false ∧
    (acquire_lock t3 (release_lock (acquire_lock t1 none).2)).1 = true := by
  refine ⟨rfl, ?_, rfl⟩
  simp only [acquire_lock, release_lock]
  have : ¬ staleThreshold < t2 - t1 := by omega
  simp [this]

/-- Witness for C2 at `t1 = 0`, `t2 = 600`, `t3 = 700`. -/
theorem lock_mutual_exclusion_witness :
    (600 : Nat) - 0 ≤ staleThreshold ∧
    ((acquire_lock 0 none).1 = true ∧
     (acquire_lock 600 (acquire_lock 0 none).2).1 = false ∧
     (acquire_lock 700 (release_lock (acquire_lock 0 none).2)).1 = true) :=
  ⟨by decide, lock_mutual_exclusion 0 600 700 (by decide)⟩

/-- Claim C7: an existing lock marker strictly older than 30 minutes is
forcibly removed and acquisition retried, so the acquire succeeds and takes
the lock at the current time; a marker at most 30 minutes old makes acquire
return false without error. -/
theorem stale_lock_reclaim (t1 t2 : Nat) :
    (staleThreshold < t2 - t1 →
      acquire_lock t2 (some t1) = (true, some t2)) ∧
    (t2 - t1 ≤ staleThreshold → (acquire_lock t2 (some t1)).1 = false) := by
  constructor
  · intro h
    simp [acquire_lock, h]
  · intro h
    have : ¬ staleThreshold < t2 - t1 := by omega
    simp [acquire_lock, this]

/-- Witness for C7: a 2000-second-old marker is reclaimed, a 100-second-old
one is not. -/
theorem stale_lock_reclaim_witness :
    acquire_lock 2000 (some 0) = (true, some 2000) ∧
    (acquire_lock 100 (some 0)).1 = false :=
  ⟨(stale_lock_reclaim 0 2000).1 (by decide),
   (stale_lock_reclaim 0 100).2 (by decide)⟩

/-- Every row the lighter ingestion loop produces carries a finite rate. -/
theorem ingest_lighter_items_finite (now : Nat) (items : List RawItem) :
    ∀ r ∈ ingest_lighter_items now items, row_rate_finite r = true := by
  intro r hr
  simp only [ingest_lighter_items, List.mem_filterMap] at hr
  obtain ⟨item, _, hitem⟩ := hr
  unfold ingest_lighter_item at hitem
  split at hitem
  next => exact absurd hitem (by simp)
  next v =>
    split at hitem
    next hfin =>
      cases hitem
      simpa [row_rate_finite] using hfin
    next => exact absurd hitem (by simp)

/-- Every row the Hyperliquid run stores carries a finite rate (the
`symbol_rates` dict only ever holds finite coerced values). -/
theorem hl_rows_finite (now : Nat) (rates : List (List Nat × ℚ)) :
    ∀ r ∈ rates.map (fun p =>
        ({ exchange := "hyperliquid", symbol := some p.1
           rate := some (PyFloat.finite p.2), timestamp := now } : StoredRow)),
      row_rate_finite r = true := by
  intro r hr
  simp only [List.mem_map] at hr
  obtain ⟨p, _, hp⟩ := hr
  cases hp
  rfl

/-- Claim C1: for every input batch of either venue, records whose rate
fails numeric coercion or coerces to a non-finite value are excluded from
storage — after a run of either ingestion pipeline over a database of
finite rates, every stored rate is still finite. -/
theorem ingestion_stores_only_finite (lock : Option Nat) (now : Nat)
    (fetchA : Except String (List RawItem)) (fetchB : Except String HLPayload)
    (db : List StoredRow)
    (hdb : ∀ r ∈ db, row_rate_finite r = true) :
    (∀ r ∈ (fetch_and_store_data lock now fetchA db).db,
        row_rate_finite r = true) ∧
    (∀ r ∈ (fetch_and_store_hyperliquid_data lock now fetchB db).db,
        row_rate_finite r = true) := by
  constructor
  · intro r hr
    cases fetchA with
    | error e =>
        simp only [fetch_and_store_data] at hr
        split at hr <;> exact hdb r hr
    | ok items =>
        simp only [fetch_and_store_data] at hr
        split at hr
        · simp only [List.mem_append] at hr
          rcases hr with h | h
          · exact hdb r h
          · exact ingest_lighter_items_finite now items r h
        · exact hdb r hr
  · intro r hr
    cases fetchB with
    | error e =>
        simp only [fetch_and_store_hyperliquid_data] at hr
        split at hr <;> exact hdb r hr
    | ok payload =>
        simp only [fetch_and_store_hyperliquid_data] at hr
        split at hr
        · split at hr
          · exact hdb r hr
          · simp only [List.mem_append] at hr
            rcases hr with h | h
            · exact hdb r h
            · exact hl_rows_finite now _ r h
        · exact hdb r hr

/-- Witness for C1: running both pipelines on concrete batches (one of them
containing a NaN record) over the empty database leaves only finite rates
stored. -/
theorem ingestion_stores_only_finite_witness :
    (∀ r ∈ [] , row_rate_finite r = true) ∧
    ((∀ r ∈ (fetch_and_store_data none 1000 (Except.ok scenario_batch) []).db,
        row_rate_finite r = true) ∧
     (∀ r ∈ (fetch_and_store_hyperliquid_data none 1000
          (Except.ok nan_only_payload) []).db,
        row_rate_finite r = true)) :=
  ⟨by simp,
   ingestion_stores_only_finite none 1000 (Except.ok scenario_batch)
     (Except.ok nan_only_payload) [] (by simp)⟩

/-- Claim C3 (code bug): running the lighter ingestion on the scenario
batch stores exactly the two valid rows (no row for `BAD`), but the
`completed` status reports `stored = 3` — `len(items)`, the raw item count
including the skipped NaN record — where the spec requires the count of
records actually stored, 2. -/
theorem stored_count_misreported :
    (fetch_and_store_data none 1000 (Except.ok scenario_batch) []).db.map
        StoredRow.symbol =
      [some (codePoints "BTC-USDC"), some (codePoints "ETH-USDC")] ∧
    (fetch_and_store_data none 1000 (Except.ok scenario_batch) []).db.length
      = 2 ∧
    (fetch_and_store_data none 1000 (Except.ok scenario_batch) []).writes =
      [StatusWrite.running "lighter", StatusWrite.completed "lighter" 3] := by
  decide

/-- Claim C8 (code bug): a Hyperliquid collection run that acquires the
lock and finds zero valid items writes the `running` status and then
returns early — no terminal `completed`/`failed` status is ever written for
that run, leaving the status record in the `running` state (the lock is
still released). -/
theorem hyperliquid_run_left_running :
    (fetch_and_store_hyperliquid_data none 1000 (Except.ok nan_only_payload)
        []).writes = [StatusWrite.running "hyperliquid"] ∧
    (fetch_and_store_hyperliquid_data none 1000 (Except.ok nan_only_payload)
        []).lock = none := by
  decide

/-- Counterexample to claim C4 as stated: over a database whose only
observation belongs to another exchange (so the `lighter` window is empty),
the top-opportunities endpoint does return empty lists and a current
timestamp without error, but the response omits the `next_funding_time`
field required by the contract shape. -/
theorem empty_window_missing_next_funding :
    (get_funding_rates hyperliquid_only_db 1000000).top_long = [] ∧
    (get_funding_rates hyperliquid_only_db 1000000).top_short = [] ∧
    (get_funding_rates hyperliquid_only_db 1000000).timestamp = 1000000 ∧
    (get_funding_rates hyperliquid_only_db 1000000).next_funding =
      JsonField.absent := by
  decide

/-- Claim C4 amended: for every database state with zero `lighter`
observations inside the 72-hour window, the endpoint returns empty
`top_long` and `top_short` lists and a valid current timestamp without
signalling an error, but the `next_funding_time` key is omitted from the
response. -/
theorem empty_window_response (db : List StoredRow) (now : Nat)
    (h : db.filter (recent_for "lighter" now) = []) :
    get_funding_rates db now =
      { top_long := [], top_short := [], timestamp := now
        next_funding := JsonField.absent } := by
  unfold get_funding_rates
  simp [h]

/-- Witness for the amended C4 at a concrete empty-window database. -/
theorem empty_window_response_witness :
    hyperliquid_only_db.filter (recent_for "lighter" 1000000) = [] ∧
    get_funding_rates hyperliquid_only_db 1000000 =
      { top_long := [], top_short := [], timestamp := 1000000
        next_funding := JsonField.absent } :=
  ⟨by decide, empty_window_response hyperliquid_only_db 1000000 (by decide)⟩

/-- Transitivity of `avg_le`. -/
theorem avg_le_trans (a b c : AvgEntry) (hab : avg_le a b = true)
    (hbc : avg_le b c = true) : avg_le a c = true := by
  simp only [avg_le, decide_eq_true_eq] at *
  exact le_trans hab hbc

/-- Totality of `avg_le`. -/
theorem avg_le_total (a b : AvgEntry) : (avg_le a b || avg_le b a) = true := by
  simp only [avg_le, Bool.or_eq_true, decide_eq_true_eq]
  exact le_total _ _

/-- Transitivity of `avg_ge`. -/
theorem avg_ge_trans (a b c : AvgEntry) (hab : avg_ge a b = true)
    (hbc : avg_ge b c = true) : avg_ge a c = true := by
  simp only [avg_ge, decide_eq_true_eq] at *
  exact le_trans hbc hab

/-- Totality of `avg_ge`. -/
theorem avg_ge_total (a b : AvgEntry) : (avg_ge a b || avg_ge b a) = true := by
  simp only [avg_ge, Bool.or_eq_true, decide_eq_true_eq]
  exact le_total _ _

/-- The ascending sort is sorted by mean rate. -/
theorem sort_asc_sorted (l : List AvgEntry) :
    List.Pairwise (fun a b : AvgEntry =>
      a.average_3day_rate ≤ b.average_3day_rate) (sort_averages_asc l) := by
  have h := List.sorted_mergeSort (avg_le_trans) (avg_le_total) l
  exact h.imp (fun hab => by simpa [avg_le] using hab)

/-- The descending sort is sorted by reversed mean rate. -/
theorem sort_desc_sorted (l : List AvgEntry) :
    List.Pairwise (fun a b : AvgEntry =>
      b.average_3day_rate ≤ a.average_3day_rate) (sort_averages_desc l) := by
  have h := List.sorted_mergeSort (avg_ge_trans) (avg_ge_total) l
  exact h.imp (fun hab => by simpa [avg_ge] using hab)

/-- The ascending sort is a permutation of its input. -/
theorem sort_asc_perm (l : List AvgEntry) :
    (sort_averages_asc l).Perm l := List.mergeSort_perm l avg_le

/-- The descending sort is a permutation of its input. -/
theorem sort_desc_perm (l : List AvgEntry) :
    (sort_averages_desc l).Perm l := List.mergeSort_perm l avg_ge

/-- Claim C5: for every database state, `top_long` is sorted ascending by
mean rate, `top_short` is sorted descending by mean rate, and the two lists
carry exactly the same symbols (the full, uncapped ranked set — each is a
permutation of the other). -/
theorem top_lists_sorted_same_symbols (db : List StoredRow) (now : Nat) :
    List.Pairwise (fun a b : AvgEntry =>
      a.average_3day_rate ≤ b.average_3day_rate)
      (get_funding_rates db now).top_long ∧
    List.Pairwise (fun a b : AvgEntry =>
      b.average_3day_rate ≤ a.average_3day_rate)
      (get_funding_rates db now).top_short ∧
    ((get_funding_rates db now).top_long.map AvgEntry.symbol).Perm
      ((get_funding_rates db now).top_short.map AvgEntry.symbol) := by
  unfold get_funding_rates
  by_cases h : (db.filter (recent_for "lighter" now)).isEmpty
  · simp [h]
  · simp only [h, Bool.false_eq_true, if_false]
    refine ⟨sort_asc_sorted _, sort_desc_sorted _, ?_⟩
    exact ((sort_asc_perm _).map _).trans (((sort_desc_perm _).map _).symm)

/-- Every `averages` entry satisfies the APR formula by construction. -/
theorem compute_averages_apr (g : List (Option (List Nat) × List ℚ)) :
    ∀ e ∈ compute_averages g, e.apr = e.average_3day_rate * 24 * 365 := by
  intro e he
  simp only [compute_averages, List.mem_filterMap] at he
  obtain ⟨p, _, hp⟩ := he
  split at hp
  · exact absurd hp (by simp)
  · cases hp
    rfl

/-- Claim C6: every symbol emitted by the aggregation endpoint (in either
list) carries an annualized rate equal to its mean hourly rate multiplied
by 24 and by 365 exactly; over the exact rational arithmetic of the model
the emitted annualized rate is finite by construction (the non-finite
discard branches of the source are unreachable). -/
theorem emitted_apr_formula (db : List StoredRow) (now : Nat) (e : AvgEntry)
    (he : e ∈ (get_funding_rates db now).top_long ∨
          e ∈ (get_funding_rates db now).top_short) :
    e.apr = e.average_3day_rate * 24 * 365 := by
  unfold get_funding_rates at he
  by_cases h : (db.filter (recent_for "lighter" now)).isEmpty
  · simp [h] at he
  · simp only [h, Bool.false_eq_true, if_false] at he
    have hm : e ∈ compute_averages
        (group_by_symbol (db.filter (recent_for "lighter" now))) := by
      rcases he with h1 | h1
      · exact (List.mem_mergeSort).1 h1
      · exact (List.mem_mergeSort).1 h1
    exact compute_averages_apr _ e hm

/-- Witness for C6 on the one-row database: its single emitted entry
satisfies the APR formula. -/
theorem emitted_apr_formula_witness :
    (one_lighter_row_avg ∈
        (get_funding_rates one_lighter_row_db 500000).top_long ∨
      one_lighter_row_avg ∈
        (get_funding_rates one_lighter_row_db 500000).top_short) ∧
    one_lighter_row_avg.apr =
      one_lighter_row_avg.average_3day_rate * 24 * 365 := by
  have hmem : one_lighter_row_avg ∈
      (get_funding_rates one_lighter_row_db 500000).top_long := by
    have harg : (get_funding_rates one_lighter_row_db 500000).top_long =
        sort_averages_asc [one_lighter_row_avg] := by
      have h : compute_averages (group_by_symbol
          (one_lighter_row_db.filter (recent_for "lighter" 500000))) =
          [one_lighter_row_avg] := by
        simp [one_lighter_row_db, one_lighter_row_avg, compute_averages,
          group_by_symbol, append_rate, recent_for, windowSeconds]
      unfold get_funding_rates
      rw [if_neg (by decide)]
      simp only [h]
    rw [harg]
    exact (List.mem_mergeSort).2 (List.mem_singleton.2 rfl)
  exact ⟨Or.inl hmem,
    emitted_apr_formula one_lighter_row_db 500000 one_lighter_row_avg
      (Or.inl hmem)⟩

/-- Uppercasing after lowercasing a code point is uppercasing it. -/
theorem upperChar_lowerChar (c : Nat) :
    upperChar (lowerChar c) = upperChar c := by
  unfold upperChar lowerChar
  repeat' split
  all_goals omega

/-- Uppercasing a code point is idempotent. -/
theorem upperChar_upperChar (c : Nat) :
    upperChar (upperChar c) = upperChar c := by
  unfold upperChar
  repeat' split
  all_goals omega

/-- Identity `s.lower().upper() == s.upper()` on symbol strings. -/
theorem pyUpper_pyLower (s : List Nat) : pyUpper (pyLower s) = pyUpper s := by
  simp [pyUpper, pyLower, List.map_map, Function.comp, upperChar_lowerChar]

/-- Identity `s.upper().upper() == s.upper()` on symbol strings. -/
theorem pyUpper_pyUpper (s : List Nat) : pyUpper (pyUpper s) = pyUpper s := by
  simp [pyUpper, List.map_map, Function.comp, upperChar_upperChar]

/-- Claim C9: symbol history lookups are case-insensitive — for every
database state and symbol string, querying the lowercased and the
uppercased spelling returns identical results on both history endpoints,
because the path parameter is uppercased before lookup; and an unknown
symbol yields an empty array rather than an error. -/
theorem history_case_insensitive :
    (∀ (db : List StoredRow) (now : Nat) (s : List Nat),
      get_symbol_history db now (pyLower s) =
        get_symbol_history db now (pyUpper s)) ∧
    (∀ (db : List StoredRow) (now : Nat) (s : List Nat),
      get_hyperliquid_symbol_history db now (pyLower s) =
        get_hyperliquid_symbol_history db now (pyUpper s)) ∧
    (∀ (db : List StoredRow) (now : Nat) (s : List Nat),
      (∀ r ∈ db, r.symbol ≠ some (pyUpper s)) →
        get_symbol_history db now s = []) := by
  refine ⟨?_, ?_, ?_⟩
  · intro db now s
    simp only [get_symbol_history, pyUpper_pyLower, pyUpper_pyUpper]
  · intro db now s
    simp only [get_hyperliquid_symbol_history, pyUpper_pyLower,
      pyUpper_pyUpper]
  · intro db now s h
    simp only [get_symbol_history]
    have hfil : db.filter (history_match "lighter" now (pyUpper s)) = [] := by
      rw [List.filter_eq_nil_iff]
      intro r hr
      simp only [history_match, Bool.and_eq_true, decide_eq_true_eq]
      intro hcon
      exact absurd hcon.1.2 (h r hr)
    rw [hfil]
    simp

/-- Witness for C9: a mixed-case lookup equals the uppercase lookup on a
concrete database, and an unknown symbol returns the empty array. -/
theorem history_case_insensitive_witness :
    get_symbol_history eth_row_db 100 (pyLower (codePoints "eTh-UsDc")) =
      get_symbol_history eth_row_db 100 (pyUpper (codePoints "eTh-UsDc")) ∧
    get_symbol_history eth_row_db 100 (codePoints "NOPE") = [] :=
  ⟨history_case_insensitive.1 eth_row_db 100 (codePoints "eTh-UsDc"),
   history_case_insensitive.2.2 eth_row_db 100 (codePoints "NOPE")
     (by decide)⟩

/-- Claim C10: the `/api/hyena/funding_rates` endpoint and the
`/api/hyperliquid/funding_rates` endpoint are equivalent — for every
database state and current time they query the same `hyperliquid` rows
over the same 72-hour window and return identical response payloads. -/
theorem hyena_equals_hyperliquid (db : List StoredRow) (now : Nat) :
    get_hyena_funding_rates db now = get_hyperliquid_funding_rates db now :=
  rfl
